import Mathlib

/-! Shallow embedding of the Dwelo lock accessory reconciliation engine
    (class DweloLockAccessory in src/index.ts, the variant with the
    auto-lock scheduler). Timers are modelled by two flags each: a
    handle flag (the TypeScript field is set) and a pending flag (the
    armed timer has not yet fired or been cleared). Network calls are
    passed in as explicit `Except` results; dispatched commands are
    recorded in a list. -/

/-- Sensor record returned by the Dwelo API (interface Sensor in src/DweloAPI.ts). -/
structure Sensor where
  deviceId : Nat
  gatewayId : Nat
  sensorType : String
  timeIssued : String
  uid : Nat
  value : String
deriving DecidableEq, Repr

/-- HomeKit LockCurrentState values the accessory uses. -/
inductive LockCurrentState where
  | UNSECURED
  | SECURED
  | UNKNOWN
deriving DecidableEq, Repr

/-- HomeKit LockTargetState values (UNSECURED = 0, SECURED = 1). -/
inductive LockTargetState where
  | UNSECURED
  | SECURED
deriving DecidableEq, Repr

/-- HomeKit StatusLowBattery values. -/
inductive StatusLowBattery where
  | BATTERY_LEVEL_NORMAL
  | BATTERY_LEVEL_LOW
deriving DecidableEq, Repr

/-- Configuration consumed by the accessory constructor. -/
structure Config where
  lockPollMs : Nat
  autoLockMinutes : Int
deriving DecidableEq, Repr

/-- Mutable state of one DweloLockAccessory instance, together with the
    exposition-layer attributes it writes and a log of commands sent to
    the transport. `batteryLevelAttr = some none` records that the NaN
    result of a failed parse was written. -/
structure AccState where
  inFlight : Bool
  desiredTarget : Option LockTargetState
  watchdogHandle : Bool
  watchdogPending : Bool
  watchdogDurationMs : Option Nat
  autoLockHandle : Bool
  autoLockPending : Bool
  currentAttr : Option LockCurrentState
  targetAttr : Option LockTargetState
  batteryLevelAttr : Option (Option Int)
  lowBatteryAttr : Option StatusLowBattery
  dispatched : List LockTargetState
deriving DecidableEq, Repr

/-- State of a freshly constructed accessory. -/
def initState : AccState :=
  { inFlight := false
    desiredTarget := none
    watchdogHandle := false
    watchdogPending := false
    watchdogDurationMs := none
    autoLockHandle := false
    autoLockPending := false
    currentAttr := none
    targetAttr := none
    batteryLevelAttr := none
    lowBatteryAttr := none
    dispatched := [] }

/-- Numeric value of a leading run of decimal digits; `none` when the run is empty. -/
def digitsVal (cs : List Char) : Option Nat :=
  let ds := cs.takeWhile Char.isDigit
  if ds.isEmpty then none
  else some (ds.foldl (fun n c => 10 * n + (c.toNat - 48)) 0)

/-- JavaScript `parseInt(s, 10)`: skip whitespace, optional sign, longest
    digit run; `none` models NaN. -/
def jsParseInt (s : String) : Option Int :=
  let cs := s.data.dropWhile (fun c => c == ' ' || c == '\t' || c == '\n' || c == '\r')
  match cs with
  | '-' :: rest => (digitsVal rest).map (fun n => -(n : Int))
  | '+' :: rest => (digitsVal rest).map (fun n => (n : Int))
  | _ => (digitsVal cs).map (fun n => (n : Int))

/-- JavaScript `>` on a number that may be NaN: NaN compares false. -/
def jsNumGt : Option Int → Int → Bool
  | none, _ => false
  | some n, m => n > m

/-- toLockState: first sensor of type "lock"; absent yields UNKNOWN,
    value "locked" yields SECURED, anything else UNSECURED. -/
def toLockState (sensors : List Sensor) : LockCurrentState :=
  match sensors.find? (fun s => s.sensorType == "lock") with
  | none => LockCurrentState.UNKNOWN
  | some lockSensor =>
      if lockSensor.value == "locked" then LockCurrentState.SECURED
      else LockCurrentState.UNSECURED

/-- setBatteryLevel: first sensor of type "battery"; absent means no
    update, otherwise the parsed level and the derived low-battery status
    are written unconditionally (a NaN parse is not guarded). -/
def setBatteryLevel (sensors : List Sensor) (st : AccState) : AccState :=
  match sensors.find? (fun s => s.sensorType == "battery") with
  | none => st
  | some batterySensor =>
      let batteryLevel := jsParseInt batterySensor.value
      let batteryStatus :=
        if jsNumGt batteryLevel 20 then StatusLowBattery.BATTERY_LEVEL_NORMAL
        else StatusLowBattery.BATTERY_LEVEL_LOW
      { st with batteryLevelAttr := some batteryLevel, lowBatteryAttr := some batteryStatus }

/-- getLockState: query the sensors, derive the lock state, update the
    battery attributes; a failed query propagates as an error with no
    state change. -/
def getLockState (q : Except Unit (List Sensor)) (st : AccState) :
    Except Unit (LockCurrentState × AccState) :=
  match q with
  | .error e => .error e
  | .ok sensors => .ok (toLockState sensors, setBatteryLevel sensors st)

/-- startWatchdog: clear any previous timer and arm a one-shot timer for
    2 * lockPollMs. -/
def startWatchdog (cfg : Config) (st : AccState) : AccState :=
  { st with
      watchdogHandle := true
      watchdogPending := true
      watchdogDurationMs := some (2 * cfg.lockPollMs) }

/-- Normalization at the top of setTargetLockState: the raw
    characteristic value equal to LockTargetState.SECURED (encoded 1)
    gives SECURED, anything else UNSECURED. -/
def normalizeTarget (value : Nat) : LockTargetState :=
  if value = 1 then LockTargetState.SECURED else LockTargetState.UNSECURED

/-- setTargetLockState: coalesce a duplicate in-flight request, otherwise
    record the target, reflect it to the target attribute, and if no
    session is in flight begin one (dispatch the command, arm the
    watchdog). -/
def setTargetLockState (cfg : Config) (value : Nat) (st : AccState) : AccState :=
  let target := normalizeTarget value
  if st.inFlight ∧ st.desiredTarget = some target then st
  else
    let st1 := { st with desiredTarget := some target, targetAttr := some target }
    if st1.inFlight then st1
    else
      let st2 := { st1 with inFlight := true, dispatched := st1.dispatched ++ [target] }
      startWatchdog cfg st2

/-- startAutoLockTimer: no-op when autoLockMinutes is not positive,
    otherwise clear any previous timer and arm a one-shot timer. -/
def startAutoLockTimer (cfg : Config) (st : AccState) : AccState :=
  if cfg.autoLockMinutes ≤ 0 then st
  else { st with autoLockHandle := true, autoLockPending := true }

/-- cancelAutoLockTimer: clear the timer and the stored handle when a
    handle is present. -/
def cancelAutoLockTimer (st : AccState) : AccState :=
  if st.autoLockHandle then { st with autoLockPending := false, autoLockHandle := false }
  else st

/-- Auto-lock maintenance block of poll (lines 321-329): on UNSECURED
    ensure a timer is set when no handle is stored, on SECURED cancel,
    otherwise leave the timer alone. -/
def pollAutoLockMaint (cfg : Config) (currentState : LockCurrentState) (st : AccState) :
    AccState :=
  if currentState = LockCurrentState.UNSECURED then
    if st.autoLockHandle then st else startAutoLockTimer cfg st
  else if currentState = LockCurrentState.SECURED then
    cancelAutoLockTimer st
  else st

/-- Desired current state implied by an in-flight target (the ternary in
    the completion check of poll, lines 332-335). -/
def desiredStateOf (t : LockTargetState) : LockCurrentState :=
  if t = LockTargetState.SECURED then LockCurrentState.SECURED
  else LockCurrentState.UNSECURED

/-- Completion-check block of poll (lines 331-344): when a session is in
    flight with a recorded target and the observed state matches the
    implied state, end the session and clear the stored watchdog timer. -/
def pollCompletionCheck (currentState : LockCurrentState) (st : AccState) : AccState :=
  match st.inFlight, st.desiredTarget with
  | true, some t =>
      if currentState = desiredStateOf t then
        { st with
            inFlight := false
            watchdogPending := if st.watchdogHandle then false else st.watchdogPending }
      else st
  | _, _ => st

/-- poll: on a failed query log and return unchanged; on success update
    battery and current-state attributes, maintain the auto-lock timer,
    and run the completion check for an in-flight session. -/
def poll (cfg : Config) (q : Except Unit (List Sensor)) (st : AccState) : AccState :=
  match q with
  | .error _ => st
  | .ok sensors =>
      let currentState := toLockState sensors
      let st1 := setBatteryLevel sensors st
      let st2 := { st1 with currentAttr := some currentState }
      pollCompletionCheck currentState (pollAutoLockMaint cfg currentState st2)

/-- reconcileTargetWithCurrent: re-query the observed state, map it to a
    target (SECURED observed gives SECURED, anything else UNSECURED),
    overwrite desiredTarget and reflect it to the target attribute. A
    failed query propagates with no state change. -/
def reconcileTargetWithCurrent (q : Except Unit (List Sensor)) (st : AccState) :
    Except Unit AccState :=
  match getLockState q st with
  | .error e => .error e
  | .ok (currentState, st1) =>
      let t :=
        if currentState = LockCurrentState.SECURED then LockTargetState.SECURED
        else LockTargetState.UNSECURED
      .ok { st1 with desiredTarget := some t, targetAttr := some t }

/-- Watchdog expiry callback: the one-shot timer fires (pending cleared),
    the session is ended unconditionally, then reconciliation runs; if
    its query fails the partial mutations remain. -/
def watchdogExpire (q : Except Unit (List Sensor)) (st : AccState) : AccState :=
  let st1 := { st with watchdogPending := false, inFlight := false }
  match reconcileTargetWithCurrent q st1 with
  | .ok st2 => st2
  | .error _ => st1

/-- Catch branch of sendLockCommand: a failed dispatch ends the session
    and runs reconciliation; the stored watchdog timer is not cleared. -/
def dispatchFailure (q : Except Unit (List Sensor)) (st : AccState) : AccState :=
  let st1 := { st with inFlight := false }
  match reconcileTargetWithCurrent q st1 with
  | .ok st2 => st2
  | .error _ => st1

/-- Auto-lock timer expiry callback: the timer fires (pending cleared,
    the stored handle is left in place) and a SECURED request is issued
    through setTargetLockState. -/
def autoLockExpire (cfg : Config) (st : AccState) : AccState :=
  let st1 := { st with autoLockPending := false }
  setTargetLockState cfg 1 st1

/-- Concrete configuration used by witnesses: 5 s poll, 1 min auto-lock. -/
def cfgA : Config := { lockPollMs := 5000, autoLockMinutes := 1 }

/-- Concrete lock reading with value "locked". -/
def sensorLockLocked : Sensor :=
  { deviceId := 1, gatewayId := 1, sensorType := "lock",
    timeIssued := "t1", uid := 11, value := "locked" }

/-- Concrete lock reading with value "unlocked". -/
def sensorLockUnlocked : Sensor :=
  { deviceId := 1, gatewayId := 1, sensorType := "lock",
    timeIssued := "t2", uid := 11, value := "unlocked" }

/-- Concrete battery reading whose value does not parse as an integer. -/
def sensorBatteryBad : Sensor :=
  { deviceId := 1, gatewayId := 1, sensorType := "battery",
    timeIssued := "t3", uid := 12, value := "notanumber" }

/-- Concrete state with an armed auto-lock timer after an UNSECURED poll. -/
def stAutoArmed : AccState :=
  { initState with
      autoLockHandle := true
      autoLockPending := true
      currentAttr := some LockCurrentState.UNSECURED }

/-- Concrete state with a session in flight toward SECURED and an armed
    watchdog, as left by setTargetLockState from the initial state. -/
def stInFlight : AccState :=
  { initState with
      inFlight := true
      desiredTarget := some LockTargetState.SECURED
      targetAttr := some LockTargetState.SECURED
      watchdogHandle := true
      watchdogPending := true
      watchdogDurationMs := some 10000
      dispatched := [LockTargetState.SECURED] }

/-- C6: toLockState returns UNKNOWN when no "lock" reading is present,
    SECURED when the lock reading's value is "locked", and UNSECURED for
    any other lock-reading value. -/
theorem C6_toLockState_policy (sensors : List Sensor) :
    (sensors.find? (fun s => s.sensorType == "lock") = none →
      toLockState sensors = LockCurrentState.UNKNOWN) ∧
    (∀ l, sensors.find? (fun s => s.sensorType == "lock") = some l →
      l.value = "locked" → toLockState sensors = LockCurrentState.SECURED) ∧
    (∀ l, sensors.find? (fun s => s.sensorType == "lock") = some l →
      l.value ≠ "locked" → toLockState sensors = LockCurrentState.UNSECURED) := by
  refine ⟨fun h => ?_, fun l h hv => ?_, fun l h hv => ?_⟩ <;>
    simp [toLockState, h]
  · simp [hv]
  · simp [hv]

/-- C6 witness: on a concrete reading set with a "locked" lock reading the
    translator returns SECURED. -/
theorem C6_toLockState_policy_witness :
    toLockState [{ deviceId := 1, gatewayId := 1, sensorType := "lock",
                   timeIssued := "t", uid := 1, value := "locked" }] =
      LockCurrentState.SECURED :=
  (C6_toLockState_policy _).2.1
    { deviceId := 1, gatewayId := 1, sensorType := "lock",
      timeIssued := "t", uid := 1, value := "locked" } (by decide) rfl


/-- setBatteryLevel does not change inFlight. -/
@[simp] theorem setBatteryLevel_inFlight (sensors : List Sensor) (st : AccState) :
    (setBatteryLevel sensors st).inFlight = st.inFlight := by
  unfold setBatteryLevel
  cases sensors.find? (fun s => s.sensorType == "battery") <;> simp

/-- setBatteryLevel does not change desiredTarget. -/
@[simp] theorem setBatteryLevel_desiredTarget (sensors : List Sensor) (st : AccState) :
    (setBatteryLevel sensors st).desiredTarget = st.desiredTarget := by
  unfold setBatteryLevel
  cases sensors.find? (fun s => s.sensorType == "battery") <;> simp

/-- setBatteryLevel does not change the watchdog handle. -/
@[simp] theorem setBatteryLevel_watchdogHandle (sensors : List Sensor) (st : AccState) :
    (setBatteryLevel sensors st).watchdogHandle = st.watchdogHandle := by
  unfold setBatteryLevel
  cases sensors.find? (fun s => s.sensorType == "battery") <;> simp

/-- setBatteryLevel does not change the watchdog pending flag. -/
@[simp] theorem setBatteryLevel_watchdogPending (sensors : List Sensor) (st : AccState) :
    (setBatteryLevel sensors st).watchdogPending = st.watchdogPending := by
  unfold setBatteryLevel
  cases sensors.find? (fun s => s.sensorType == "battery") <;> simp

/-- setBatteryLevel does not change the watchdog duration. -/
@[simp] theorem setBatteryLevel_watchdogDurationMs (sensors : List Sensor) (st : AccState) :
    (setBatteryLevel sensors st).watchdogDurationMs = st.watchdogDurationMs := by
  unfold setBatteryLevel
  cases sensors.find? (fun s => s.sensorType == "battery") <;> simp

/-- setBatteryLevel does not change the auto-lock handle. -/
@[simp] theorem setBatteryLevel_autoLockHandle (sensors : List Sensor) (st : AccState) :
    (setBatteryLevel sensors st).autoLockHandle = st.autoLockHandle := by
  unfold setBatteryLevel
  cases sensors.find? (fun s => s.sensorType == "battery") <;> simp

/-- setBatteryLevel does not change the auto-lock pending flag. -/
@[simp] theorem setBatteryLevel_autoLockPending (sensors : List Sensor) (st : AccState) :
    (setBatteryLevel sensors st).autoLockPending = st.autoLockPending := by
  unfold setBatteryLevel
  cases sensors.find? (fun s => s.sensorType == "battery") <;> simp

/-- setBatteryLevel does not change the current-state attribute. -/
@[simp] theorem setBatteryLevel_currentAttr (sensors : List Sensor) (st : AccState) :
    (setBatteryLevel sensors st).currentAttr = st.currentAttr := by
  unfold setBatteryLevel
  cases sensors.find? (fun s => s.sensorType == "battery") <;> simp

/-- setBatteryLevel does not change the target-state attribute. -/
@[simp] theorem setBatteryLevel_targetAttr (sensors : List Sensor) (st : AccState) :
    (setBatteryLevel sensors st).targetAttr = st.targetAttr := by
  unfold setBatteryLevel
  cases sensors.find? (fun s => s.sensorType == "battery") <;> simp

/-- setBatteryLevel does not change the dispatch log. -/
@[simp] theorem setBatteryLevel_dispatched (sensors : List Sensor) (st : AccState) :
    (setBatteryLevel sensors st).dispatched = st.dispatched := by
  unfold setBatteryLevel
  cases sensors.find? (fun s => s.sensorType == "battery") <;> simp

/-- Auto-lock maintenance does not change inFlight. -/
@[simp] theorem pollAutoLockMaint_inFlight (cfg : Config) (c : LockCurrentState)
    (st : AccState) : (pollAutoLockMaint cfg c st).inFlight = st.inFlight := by
  unfold pollAutoLockMaint startAutoLockTimer cancelAutoLockTimer
  split_ifs <;> rfl

/-- Auto-lock maintenance does not change desiredTarget. -/
@[simp] theorem pollAutoLockMaint_desiredTarget (cfg : Config) (c : LockCurrentState)
    (st : AccState) : (pollAutoLockMaint cfg c st).desiredTarget = st.desiredTarget := by
  unfold pollAutoLockMaint startAutoLockTimer cancelAutoLockTimer
  split_ifs <;> rfl

/-- Auto-lock maintenance does not change the watchdog handle. -/
@[simp] theorem pollAutoLockMaint_watchdogHandle (cfg : Config) (c : LockCurrentState)
    (st : AccState) : (pollAutoLockMaint cfg c st).watchdogHandle = st.watchdogHandle := by
  unfold pollAutoLockMaint startAutoLockTimer cancelAutoLockTimer
  split_ifs <;> rfl

/-- Auto-lock maintenance does not change the watchdog pending flag. -/
@[simp] theorem pollAutoLockMaint_watchdogPending (cfg : Config) (c : LockCurrentState)
    (st : AccState) : (pollAutoLockMaint cfg c st).watchdogPending = st.watchdogPending := by
  unfold pollAutoLockMaint startAutoLockTimer cancelAutoLockTimer
  split_ifs <;> rfl

/-- Auto-lock maintenance does not change the watchdog duration. -/
@[simp] theorem pollAutoLockMaint_watchdogDurationMs (cfg : Config) (c : LockCurrentState)
    (st : AccState) :
    (pollAutoLockMaint cfg c st).watchdogDurationMs = st.watchdogDurationMs := by
  unfold pollAutoLockMaint startAutoLockTimer cancelAutoLockTimer
  split_ifs <;> rfl

/-- Auto-lock maintenance does not change the current-state attribute. -/
@[simp] theorem pollAutoLockMaint_currentAttr (cfg : Config) (c : LockCurrentState)
    (st : AccState) : (pollAutoLockMaint cfg c st).currentAttr = st.currentAttr := by
  unfold pollAutoLockMaint startAutoLockTimer cancelAutoLockTimer
  split_ifs <;> rfl

/-- Auto-lock maintenance does not change the target-state attribute. -/
@[simp] theorem pollAutoLockMaint_targetAttr (cfg : Config) (c : LockCurrentState)
    (st : AccState) : (pollAutoLockMaint cfg c st).targetAttr = st.targetAttr := by
  unfold pollAutoLockMaint startAutoLockTimer cancelAutoLockTimer
  split_ifs <;> rfl

/-- Auto-lock maintenance does not change the battery-level attribute. -/
@[simp] theorem pollAutoLockMaint_batteryLevelAttr (cfg : Config) (c : LockCurrentState)
    (st : AccState) :
    (pollAutoLockMaint cfg c st).batteryLevelAttr = st.batteryLevelAttr := by
  unfold pollAutoLockMaint startAutoLockTimer cancelAutoLockTimer
  split_ifs <;> rfl

/-- Auto-lock maintenance does not change the low-battery attribute. -/
@[simp] theorem pollAutoLockMaint_lowBatteryAttr (cfg : Config) (c : LockCurrentState)
    (st : AccState) : (pollAutoLockMaint cfg c st).lowBatteryAttr = st.lowBatteryAttr := by
  unfold pollAutoLockMaint startAutoLockTimer cancelAutoLockTimer
  split_ifs <;> rfl

/-- Auto-lock maintenance does not change the dispatch log. -/
@[simp] theorem pollAutoLockMaint_dispatched (cfg : Config) (c : LockCurrentState)
    (st : AccState) : (pollAutoLockMaint cfg c st).dispatched = st.dispatched := by
  unfold pollAutoLockMaint startAutoLockTimer cancelAutoLockTimer
  split_ifs <;> rfl

/-- The completion check does not change desiredTarget. -/
@[simp] theorem pollCompletionCheck_desiredTarget (c : LockCurrentState) (st : AccState) :
    (pollCompletionCheck c st).desiredTarget = st.desiredTarget := by
  unfold pollCompletionCheck
  cases h1 : st.inFlight <;> cases h2 : st.desiredTarget <;> simp [h1, h2] <;>
    split <;> simp [h2]

/-- The completion check does not change the watchdog handle. -/
@[simp] theorem pollCompletionCheck_watchdogHandle (c : LockCurrentState) (st : AccState) :
    (pollCompletionCheck c st).watchdogHandle = st.watchdogHandle := by
  unfold pollCompletionCheck
  cases h1 : st.inFlight <;> cases h2 : st.desiredTarget <;> simp [h1, h2] <;>
    split <;> simp

/-- The completion check does not change the auto-lock handle. -/
@[simp] theorem pollCompletionCheck_autoLockHandle (c : LockCurrentState) (st : AccState) :
    (pollCompletionCheck c st).autoLockHandle = st.autoLockHandle := by
  unfold pollCompletionCheck
  cases h1 : st.inFlight <;> cases h2 : st.desiredTarget <;> simp [h1, h2] <;>
    split <;> simp

/-- The completion check does not change the auto-lock pending flag. -/
@[simp] theorem pollCompletionCheck_autoLockPending (c : LockCurrentState) (st : AccState) :
    (pollCompletionCheck c st).autoLockPending = st.autoLockPending := by
  unfold pollCompletionCheck
  cases h1 : st.inFlight <;> cases h2 : st.desiredTarget <;> simp [h1, h2] <;>
    split <;> simp

/-- The completion check does not change the current-state attribute. -/
@[simp] theorem pollCompletionCheck_currentAttr (c : LockCurrentState) (st : AccState) :
    (pollCompletionCheck c st).currentAttr = st.currentAttr := by
  unfold pollCompletionCheck
  cases h1 : st.inFlight <;> cases h2 : st.desiredTarget <;> simp [h1, h2] <;>
    split <;> simp

/-- The completion check does not change the target-state attribute. -/
@[simp] theorem pollCompletionCheck_targetAttr (c : LockCurrentState) (st : AccState) :
    (pollCompletionCheck c st).targetAttr = st.targetAttr := by
  unfold pollCompletionCheck
  cases h1 : st.inFlight <;> cases h2 : st.desiredTarget <;> simp [h1, h2] <;>
    split <;> simp

/-- The completion check does not change the dispatch log. -/
@[simp] theorem pollCompletionCheck_dispatched (c : LockCurrentState) (st : AccState) :
    (pollCompletionCheck c st).dispatched = st.dispatched := by
  unfold pollCompletionCheck
  cases h1 : st.inFlight <;> cases h2 : st.desiredTarget <;> simp [h1, h2] <;>
    split <;> simp

/-- Unfolding of a successful poll into its three blocks. -/
theorem poll_ok (cfg : Config) (sensors : List Sensor) (st : AccState) :
    poll cfg (Except.ok sensors) st =
      pollCompletionCheck (toLockState sensors)
        (pollAutoLockMaint cfg (toLockState sensors)
          { setBatteryLevel sensors st with currentAttr := some (toLockState sensors) }) := rfl

/-- Completion-check success case: with a session in flight whose implied
    state matches the observation, the session ends and the stored
    watchdog timer is cleared. -/
theorem pollCompletionCheck_complete (c : LockCurrentState) (st : AccState)
    (t : LockTargetState) (hin : st.inFlight = true) (hd : st.desiredTarget = some t)
    (hc : c = desiredStateOf t) :
    pollCompletionCheck c st =
      { st with
          inFlight := false
          watchdogPending := if st.watchdogHandle then false else st.watchdogPending } := by
  simp [pollCompletionCheck, hin, hd, hc]

/-- The completion check ends a session exactly when one is in flight
    with a recorded target whose implied state matches the observation. -/
theorem pollCompletionCheck_inFlight_iff (c : LockCurrentState) (st : AccState) :
    (pollCompletionCheck c st).inFlight = false ↔
      (st.inFlight = false ∨
        ∃ t, st.desiredTarget = some t ∧ c = desiredStateOf t) := by
  cases h1 : st.inFlight <;> cases h2 : st.desiredTarget <;>
    simp [pollCompletionCheck, h1, h2]
  split
  · simp_all
  · rename_i hne
    simp [h1, hne]

/-- A successful poll matching an in-flight target ends the session and
    leaves the watchdog disarmed, assuming a pending watchdog always has
    a stored handle (true in every reachable state). -/
theorem poll_ok_complete (cfg : Config) (sensors : List Sensor) (st : AccState)
    (t : LockTargetState) (hin : st.inFlight = true) (hd : st.desiredTarget = some t)
    (hm : toLockState sensors = desiredStateOf t)
    (hwp : st.watchdogPending = true → st.watchdogHandle = true) :
    (poll cfg (Except.ok sensors) st).inFlight = false ∧
    (poll cfg (Except.ok sensors) st).watchdogPending = false := by
  rw [poll_ok]
  rw [pollCompletionCheck_complete _ _ t (by simp [hin]) (by simp [hd]) hm]
  refine ⟨rfl, ?_⟩
  show (if _ then false else _) = false
  simp only [pollAutoLockMaint_watchdogHandle, setBatteryLevel_watchdogHandle,
    pollAutoLockMaint_watchdogPending, setBatteryLevel_watchdogPending]
  cases hh : st.watchdogHandle with
  | true => simp
  | false =>
      cases hp : st.watchdogPending with
      | false => simp
      | true =>
          have hht := hwp hp
          rw [hh] at hht
          exact absurd hht (by simp)

/-- C1 counterexample: from the initial state, a SECURED request followed
    by a dispatch failure ends the session but leaves the watchdog timer
    armed, so armed if-and-only-if inFlight fails on the dispatch-failure
    path. -/
theorem C1_cex_dispatch_failure_watchdog_armed :
    (dispatchFailure (Except.ok [sensorLockUnlocked])
        (setTargetLockState cfgA 1 initState)).inFlight = false ∧
    (dispatchFailure (Except.ok [sensorLockUnlocked])
        (setTargetLockState cfgA 1 initState)).watchdogPending = true := by
  decide

/-- C1 (amended): the watchdog ends disarmed on poll completion and on
    its own expiry, and every path that newly arms it has inFlight true;
    the dispatch-failure path however ends the session while leaving the
    watchdog armed (it fires later and reconciles again). -/
theorem C1_watchdog_armed_iff_inflight_amended :
    (∀ cfg sensors st t,
        st.inFlight = true →
        st.desiredTarget = some t →
        toLockState sensors = desiredStateOf t →
        (st.watchdogPending = true → st.watchdogHandle = true) →
        (poll cfg (Except.ok sensors) st).inFlight = false ∧
        (poll cfg (Except.ok sensors) st).watchdogPending = false) ∧
    (∀ q st, (watchdogExpire q st).watchdogPending = false) ∧
    (∀ cfg v st,
        (setTargetLockState cfg v st).inFlight = true ∨
        (setTargetLockState cfg v st).watchdogPending = st.watchdogPending) ∧
    (∀ q st,
        (dispatchFailure q st).inFlight = false ∧
        (dispatchFailure q st).watchdogPending = st.watchdogPending) := by
  refine ⟨fun cfg sensors st t hin hd hm hwp =>
    poll_ok_complete cfg sensors st t hin hd hm hwp, ?_, ?_, ?_⟩
  · intro q st
    cases q with
    | error e => rfl
    | ok sensors => simp [watchdogExpire, reconcileTargetWithCurrent, getLockState]
  · intro cfg v st
    simp only [setTargetLockState, startWatchdog]
    split_ifs <;> simp_all
  · intro q st
    cases q with
    | error e => exact ⟨rfl, rfl⟩
    | ok sensors =>
        constructor <;> simp [dispatchFailure, reconcileTargetWithCurrent, getLockState]

/-- C1 witness: a poll observing "locked" with a SECURED session in
    flight ends it with the watchdog disarmed. -/
theorem C1_watchdog_armed_iff_inflight_amended_witness :
    (poll cfgA (Except.ok [sensorLockLocked]) stInFlight).inFlight = false ∧
    (poll cfgA (Except.ok [sensorLockLocked]) stInFlight).watchdogPending = false :=
  C1_watchdog_armed_iff_inflight_amended.1 cfgA [sensorLockLocked] stInFlight
    LockTargetState.SECURED rfl rfl (by decide) (fun _ => rfl)

/-- C2: a target-state request while a session is in flight toward a
    different target records the new target and reflects it to the target
    attribute, and changes nothing else: no dispatch, no watchdog rearm. -/
theorem C2_target_change_in_flight (cfg : Config) (v : Nat) (st : AccState)
    (d : LockTargetState) (hin : st.inFlight = true) (hd : st.desiredTarget = some d)
    (hne : normalizeTarget v ≠ d) :
    setTargetLockState cfg v st =
      { st with desiredTarget := some (normalizeTarget v),
                targetAttr := some (normalizeTarget v) } := by
  simp [setTargetLockState, hin, hd, Ne.symm hne]

/-- C2 witness: an UNSECURED request while a SECURED session is in flight
    only rewrites desiredTarget and the target attribute. -/
theorem C2_target_change_in_flight_witness :
    setTargetLockState cfgA 0 stInFlight =
      { stInFlight with desiredTarget := some LockTargetState.UNSECURED,
                        targetAttr := some LockTargetState.UNSECURED } :=
  C2_target_change_in_flight cfgA 0 stInFlight LockTargetState.SECURED rfl rfl (by decide)

/-- C3: a request from an idle session dispatches exactly one command,
    and repeating the same request while it is in flight is a no-op. -/
theorem C3_duplicate_request_single_dispatch (cfg : Config) (v : Nat) (st : AccState)
    (h : st.inFlight = false) :
    (setTargetLockState cfg v st).dispatched = st.dispatched ++ [normalizeTarget v] ∧
    setTargetLockState cfg v (setTargetLockState cfg v st) = setTargetLockState cfg v st := by
  simp [setTargetLockState, startWatchdog, h]

/-- C3 witness: two successive SECURED requests from the initial state
    issue a single dispatch and the second is a no-op. -/
theorem C3_duplicate_request_single_dispatch_witness :
    (setTargetLockState cfgA 1 initState).dispatched =
      initState.dispatched ++ [normalizeTarget 1] ∧
    setTargetLockState cfgA 1 (setTargetLockState cfgA 1 initState) =
      setTargetLockState cfgA 1 initState :=
  C3_duplicate_request_single_dispatch cfgA 1 initState rfl

/-- C4: a successful poll ends the session exactly when the observation
    matches the state implied by the recorded target of an in-flight
    session, and then the watchdog is disarmed; a failed poll never ends
    a session. -/
theorem C4_poll_success_path (cfg : Config) (sensors : List Sensor) (st : AccState)
    (hwp : st.watchdogPending = true → st.watchdogHandle = true) :
    ((poll cfg (Except.ok sensors) st).inFlight = false ↔
      (st.inFlight = false ∨
        ∃ t, st.desiredTarget = some t ∧ toLockState sensors = desiredStateOf t)) ∧
    (∀ t, st.inFlight = true → st.desiredTarget = some t →
      toLockState sensors = desiredStateOf t →
      (poll cfg (Except.ok sensors) st).watchdogPending = false) ∧
    (∀ e, (poll cfg (Except.error e) st).inFlight = st.inFlight) := by
  refine ⟨?_, fun t hin hd hm => (poll_ok_complete cfg sensors st t hin hd hm hwp).2,
    fun e => rfl⟩
  rw [poll_ok, pollCompletionCheck_inFlight_iff]
  simp

/-- C4 witness: with a SECURED session in flight, a poll observing
    "locked" ends the session and disarms the watchdog. -/
theorem C4_poll_success_path_witness :
    ((poll cfgA (Except.ok [sensorLockLocked]) stInFlight).inFlight = false ↔
      (stInFlight.inFlight = false ∨
        ∃ t, stInFlight.desiredTarget = some t ∧
          toLockState [sensorLockLocked] = desiredStateOf t)) ∧
    (∀ t, stInFlight.inFlight = true → stInFlight.desiredTarget = some t →
      toLockState [sensorLockLocked] = desiredStateOf t →
      (poll cfgA (Except.ok [sensorLockLocked]) stInFlight).watchdogPending = false) ∧
    (∀ e, (poll cfgA (Except.error e) stInFlight).inFlight = stInFlight.inFlight) :=
  C4_poll_success_path cfgA [sensorLockLocked] stInFlight (fun _ => rfl)

/-- setTargetLockState does not change the auto-lock handle. -/
@[simp] theorem setTargetLockState_autoLockHandle (cfg : Config) (v : Nat) (st : AccState) :
    (setTargetLockState cfg v st).autoLockHandle = st.autoLockHandle := by
  simp only [setTargetLockState, startWatchdog]
  split_ifs <;> rfl

/-- setTargetLockState does not change the auto-lock pending flag. -/
@[simp] theorem setTargetLockState_autoLockPending (cfg : Config) (v : Nat) (st : AccState) :
    (setTargetLockState cfg v st).autoLockPending = st.autoLockPending := by
  simp only [setTargetLockState, startWatchdog]
  split_ifs <;> rfl

/-- C5: beginning a session arms the watchdog for exactly 2 * lockPollMs;
    on expiry the session is ended unconditionally and reconciliation
    overwrites desiredTarget with the target implied by the re-queried
    observation (SECURED observed gives SECURED, anything else
    UNSECURED), reflecting it to the target attribute. -/
theorem C5_watchdog_duration_and_expiry :
    (∀ cfg v st, st.inFlight = false →
        (setTargetLockState cfg v st).watchdogPending = true ∧
        (setTargetLockState cfg v st).watchdogDurationMs = some (2 * cfg.lockPollMs)) ∧
    (∀ q st, (watchdogExpire q st).inFlight = false) ∧
    (∀ sensors st,
        (watchdogExpire (Except.ok sensors) st).desiredTarget =
          some (if toLockState sensors = LockCurrentState.SECURED
            then LockTargetState.SECURED else LockTargetState.UNSECURED) ∧
        (watchdogExpire (Except.ok sensors) st).targetAttr =
          some (if toLockState sensors = LockCurrentState.SECURED
            then LockTargetState.SECURED else LockTargetState.UNSECURED)) := by
  refine ⟨?_, ?_, ?_⟩
  · intro cfg v st h
    simp only [setTargetLockState, startWatchdog]
    split_ifs <;> simp_all
  · intro q st
    cases q with
    | error e => rfl
    | ok sensors => simp [watchdogExpire, reconcileTargetWithCurrent, getLockState]
  · intro sensors st
    constructor <;> simp [watchdogExpire, reconcileTargetWithCurrent, getLockState]

/-- C5 witness: a SECURED request from the initial state arms the
    watchdog for 2 * 5000 ms. -/
theorem C5_watchdog_duration_and_expiry_witness :
    (setTargetLockState cfgA 1 initState).watchdogPending = true ∧
    (setTargetLockState cfgA 1 initState).watchdogDurationMs = some (2 * cfgA.lockPollMs) :=
  C5_watchdog_duration_and_expiry.1 cfgA 1 initState rfl

/-- C7 counterexample: a poll that observes UNKNOWN (no lock reading)
    leaves the auto-lock timer armed although the most recently observed
    state is no longer UNSECURED, refuting the claim that every poll
    observing a non-UNSECURED state disarms the timer. -/
theorem C7_cex_unknown_poll_keeps_autolock_armed :
    (poll cfgA (Except.ok []) stAutoArmed).autoLockPending = true ∧
    (poll cfgA (Except.ok []) stAutoArmed).currentAttr = some LockCurrentState.UNKNOWN := by
  decide

/-- C7 (amended): after a successful poll an armed auto-lock timer
    implies the poll did not observe SECURED; a poll observing SECURED
    disarms the timer, while a poll observing UNKNOWN leaves both timer
    flags untouched; the current-state attribute records the poll's
    observation. -/
theorem C7_autolock_armed_not_secured (cfg : Config) (sensors : List Sensor) (st : AccState)
    (hph : st.autoLockPending = true → st.autoLockHandle = true) :
    ((poll cfg (Except.ok sensors) st).autoLockPending = true →
      toLockState sensors ≠ LockCurrentState.SECURED) ∧
    (toLockState sensors = LockCurrentState.SECURED →
      (poll cfg (Except.ok sensors) st).autoLockPending = false) ∧
    (toLockState sensors = LockCurrentState.UNKNOWN →
      (poll cfg (Except.ok sensors) st).autoLockPending = st.autoLockPending ∧
      (poll cfg (Except.ok sensors) st).autoLockHandle = st.autoLockHandle) ∧
    (poll cfg (Except.ok sensors) st).currentAttr = some (toLockState sensors) := by
  have hsec : toLockState sensors = LockCurrentState.SECURED →
      (poll cfg (Except.ok sensors) st).autoLockPending = false := by
    intro hc
    rw [poll_ok]
    simp only [pollCompletionCheck_autoLockPending]
    cases hah : st.autoLockHandle with
    | true => simp [pollAutoLockMaint, hc, cancelAutoLockTimer, hah]
    | false =>
        simp [pollAutoLockMaint, hc, cancelAutoLockTimer, hah]
        cases hp : st.autoLockPending with
        | false => rfl
        | true =>
            have hht := hph hp
            rw [hah] at hht
            exact absurd hht (by simp)
  refine ⟨fun hp hc => ?_, hsec, fun hc => ?_, ?_⟩
  · rw [hsec hc] at hp
    exact Bool.noConfusion hp
  · rw [poll_ok]
    constructor <;> simp [pollAutoLockMaint, hc]
  · rw [poll_ok]
    simp

/-- C7 witness: a poll observing "locked" with an armed auto-lock timer
    disarms it and records SECURED as the observation. -/
theorem C7_autolock_armed_not_secured_witness :
    ((poll cfgA (Except.ok [sensorLockLocked]) stAutoArmed).autoLockPending = true →
      toLockState [sensorLockLocked] ≠ LockCurrentState.SECURED) ∧
    (toLockState [sensorLockLocked] = LockCurrentState.SECURED →
      (poll cfgA (Except.ok [sensorLockLocked]) stAutoArmed).autoLockPending = false) ∧
    (toLockState [sensorLockLocked] = LockCurrentState.UNKNOWN →
      (poll cfgA (Except.ok [sensorLockLocked]) stAutoArmed).autoLockPending =
        stAutoArmed.autoLockPending ∧
      (poll cfgA (Except.ok [sensorLockLocked]) stAutoArmed).autoLockHandle =
        stAutoArmed.autoLockHandle) ∧
    (poll cfgA (Except.ok [sensorLockLocked]) stAutoArmed).currentAttr =
      some (toLockState [sensorLockLocked]) :=
  C7_autolock_armed_not_secured cfgA [sensorLockLocked] stAutoArmed (fun _ => rfl)

/-- C8 counterexample: a battery reading whose value fails to parse still
    causes both battery attributes to be written (level NaN, status LOW),
    refuting the claim that the update is skipped. -/
theorem C8_cex_malformed_battery_still_updates :
    (setBatteryLevel [sensorBatteryBad] initState).batteryLevelAttr = some none ∧
    (setBatteryLevel [sensorBatteryBad] initState).lowBatteryAttr =
      some StatusLowBattery.BATTERY_LEVEL_LOW := by
  decide

/-- C8 (amended): a battery reading that does not parse is not guarded:
    the battery-level attribute is written with the NaN parse result and
    the low-battery status is set LOW (NaN > 20 is false); no other field
    changes and lock-state handling is unaffected. -/
theorem C8_malformed_battery_updates_nan (cfg : Config) (sensors : List Sensor)
    (st : AccState) (b : Sensor)
    (hb : sensors.find? (fun s => s.sensorType == "battery") = some b)
    (hp : jsParseInt b.value = none) :
    setBatteryLevel sensors st =
      { st with batteryLevelAttr := some none,
                lowBatteryAttr := some StatusLowBattery.BATTERY_LEVEL_LOW } ∧
    (poll cfg (Except.ok sensors) st).currentAttr = some (toLockState sensors) := by
  constructor
  · simp [setBatteryLevel, hb, hp, jsNumGt]
  · rw [poll_ok]
    simp

/-- C8 witness: the unparseable battery reading "notanumber" produces the
    NaN level and LOW status on the initial state, and the poll still
    records the lock observation. -/
theorem C8_malformed_battery_updates_nan_witness :
    setBatteryLevel [sensorBatteryBad] initState =
      { initState with batteryLevelAttr := some none,
                       lowBatteryAttr := some StatusLowBattery.BATTERY_LEVEL_LOW } ∧
    (poll cfgA (Except.ok [sensorBatteryBad]) initState).currentAttr =
      some (toLockState [sensorBatteryBad]) :=
  C8_malformed_battery_updates_nan cfgA [sensorBatteryBad] initState sensorBatteryBad
    (by decide) (by decide)

/-- C9 counterexample: a failing on-demand state read is not swallowed by
    the accessory: getLockState propagates the error to its caller. -/
theorem C9_cex_get_lock_state_propagates :
    getLockState (Except.error ()) initState = Except.error () := rfl

/-- C9 (amended): a failing poll is swallowed with no state change; a
    failing on-demand state read or reconciliation query propagates the
    error to its caller, in both cases leaving the state untouched, and
    the next poll simply runs again. -/
theorem C9_query_failure_no_state_change :
    (∀ cfg e st, poll cfg (Except.error e) st = st) ∧
    (∀ e st, getLockState (Except.error e) st = Except.error e) ∧
    (∀ e st, reconcileTargetWithCurrent (Except.error e) st = Except.error e) :=
  ⟨fun _ _ _ => rfl, fun _ _ => rfl, fun _ _ => rfl⟩

/-- C10: the auto-lock expiry callback leaves the stored handle in place
    with the timer no longer pending, so subsequent UNSECURED polls do
    not arm a new timer; a SECURED poll clears the stale handle, after
    which an UNSECURED poll arms a fresh timer. -/
theorem C10_stale_autolock_handle (cfg : Config) (st : AccState)
    (sensorsU sensorsS : List Sensor)
    (hU : toLockState sensorsU = LockCurrentState.UNSECURED)
    (hS : toLockState sensorsS = LockCurrentState.SECURED)
    (hm : 0 < cfg.autoLockMinutes)
    (hH : st.autoLockHandle = true) :
    (autoLockExpire cfg st).autoLockHandle = true ∧
    (autoLockExpire cfg st).autoLockPending = false ∧
    (∀ st2 : AccState, st2.autoLockHandle = true → st2.autoLockPending = false →
      (poll cfg (Except.ok sensorsU) st2).autoLockPending = false ∧
      (poll cfg (Except.ok sensorsU) st2).autoLockHandle = true) ∧
    (∀ st2 : AccState, (poll cfg (Except.ok sensorsS) st2).autoLockHandle = false) ∧
    (∀ st2 : AccState, st2.autoLockHandle = false →
      (poll cfg (Except.ok sensorsU) st2).autoLockPending = true) := by
  refine ⟨by simp [autoLockExpire, hH], by simp [autoLockExpire], ?_, ?_, ?_⟩
  · intro st2 h2H h2P
    rw [poll_ok]
    constructor <;> simp [pollAutoLockMaint, hU, h2H, h2P]
  · intro st2
    rw [poll_ok]
    simp only [pollCompletionCheck_autoLockHandle]
    cases hah : st2.autoLockHandle with
    | true => simp [pollAutoLockMaint, hS, cancelAutoLockTimer, hah]
    | false => simp [pollAutoLockMaint, hS, cancelAutoLockTimer, hah]
  · intro st2 h2H
    rw [poll_ok]
    simp [pollAutoLockMaint, hU, h2H, startAutoLockTimer, not_le.mpr hm]

/-- C10 witness: with the concrete armed state, expiry leaves a stale
    handle that blocks rearming on UNSECURED polls until a SECURED poll
    clears it. -/
theorem C10_stale_autolock_handle_witness :
    (autoLockExpire cfgA stAutoArmed).autoLockHandle = true ∧
    (autoLockExpire cfgA stAutoArmed).autoLockPending = false ∧
    (∀ st2 : AccState, st2.autoLockHandle = true → st2.autoLockPending = false →
      (poll cfgA (Except.ok [sensorLockUnlocked]) st2).autoLockPending = false ∧
      (poll cfgA (Except.ok [sensorLockUnlocked]) st2).autoLockHandle = true) ∧
    (∀ st2 : AccState, (poll cfgA (Except.ok [sensorLockLocked]) st2).autoLockHandle = false) ∧
    (∀ st2 : AccState, st2.autoLockHandle = false →
      (poll cfgA (Except.ok [sensorLockUnlocked]) st2).autoLockPending = true) :=
  C10_stale_autolock_handle cfgA stAutoArmed [sensorLockUnlocked] [sensorLockLocked]
    (by decide) (by decide) (by decide) rfl
